import Mathlib

/-!
Shallow embedding of the session dialogue orchestrator of the
AI-Health-System repository (src/agent_server.py, src/agent_app.py).

Server side (`agent_server.py`): the module-level dictionaries
`chat_titles`, `chat_histories`, `user_health_data` become a `ServerState`
record of partial maps; `process_agent_query` becomes `processAgentQuery`,
with the two external collaborators (`retrieve_context` and `ollama.chat`)
passed in as oracle functions — `retrieve_context` catches its own errors
and returns a plain string, so it is a total function `String → String`;
the model call may fail, so it is `List Msg → Except String String`.
Python string operations are mirrored by executable Lean counterparts
(`in` on strings is `strContains`, `str.split(sep)` is `pySplitOn`,
`str.strip()` is `pyTrim`, `str.lower()` is `pyLower`, `str.replace` is
`pyReplace`, `s[:10]` is `String.take 10`, `str.title()` is `pyTitle`;
they are written by structural recursion over the character list so that
concrete runs reduce inside the kernel).

Client side (`agent_app.py`): the `st.session_state` flags become a
`ClientState` record and the chat-input processing block (lines 1253-1272,
together with `handle_confirmation` and the tool-intent handling inside
`query_agent`) becomes `clientStep`, with the server's reply and
`tools_used` passed in as oracle arguments.
-/

namespace HealthAgent

/-- Message roles used by the server history ("system" / "user" / "assistant"). -/
inductive Role where
  | system
  | user
  | assistant
  deriving DecidableEq, Repr

/-- A chat message `{"role": ..., "content": ...}` of the server history. -/
structure Msg where
  role : Role
  content : String
  deriving DecidableEq, Repr

/-- Helper for Python substring test: does `pat` occur inside the list `s`. -/
def subAux : List Char → List Char → Bool
  | [], pat => pat.isEmpty
  | c :: t, pat => pat.isPrefixOf (c :: t) || subAux t pat

/-- Python `pat in s` on strings (substring containment). -/
def strContains (s pat : String) : Bool := subAux s.data pat.data

/-- Python `any(keyword in s for keyword in kws)`. -/
def containsAny (s : String) (kws : List String) : Bool :=
  kws.any (fun kw => strContains s kw)

/-- Python `str.lower()` (over the ASCII letters the orchestrator's
keyword tables use), as a structurally recursive function. -/
def pyLower (s : String) : String := String.mk (s.data.map Char.toLower)

/-- Python `str.strip()`: drop leading and trailing whitespace. -/
def pyTrim (s : String) : String :=
  String.mk (((s.data.dropWhile Char.isWhitespace).reverse.dropWhile
    Char.isWhitespace).reverse)

/-- Worker for Python `str.split(sep)` with a non-empty separator:
left-to-right, non-overlapping; `fuel` only bounds the recursion and is
always at least the remaining length at every call site. -/
def splitOnAux (sep : List Char) : Nat → List Char → List Char → List (List Char)
  | _, [], acc => [acc.reverse]
  | 0, s, acc => [acc.reverse ++ s]
  | fuel + 1, c :: t, acc =>
    if sep.isPrefixOf (c :: t) then
      acc.reverse :: splitOnAux sep fuel (List.drop sep.length (c :: t)) []
    else
      splitOnAux sep fuel t (c :: acc)

/-- Python `str.split(sep)` for a non-empty separator. -/
def pySplitOn (s sep : String) : List String :=
  (splitOnAux sep.data (s.data.length + 1) s.data []).map String.mk

/-- Python `str.replace(pat, rep)` for a non-empty pattern. -/
def pyReplace (s pat rep : String) : String :=
  String.intercalate rep (pySplitOn s pat)

/-- Worker for Python `str.split()` with no separator. -/
def wordsAux : List Char → List Char → List (List Char)
  | [], acc => if acc.isEmpty then [] else [acc.reverse]
  | c :: t, acc =>
    if c.isWhitespace then
      if acc.isEmpty then wordsAux t [] else acc.reverse :: wordsAux t []
    else wordsAux t (c :: acc)

/-- Python `str.title()`: uppercase each letter that starts an alphabetic run,
lowercase the rest. -/
def titleAux : List Char → Bool → List Char
  | [], _ => []
  | c :: t, prevAlpha =>
    (if c.isAlpha then (if prevAlpha then c.toLower else c.toUpper) else c)
      :: titleAux t c.isAlpha

/-- Python `str.title()`. -/
def pyTitle (s : String) : String := String.mk (titleAux s.data false)

/-- Python `str.split()` with no separator: split on whitespace runs,
dropping empty pieces. -/
def pySplitWs (s : String) : List String :=
  (wordsAux s.data []).map String.mk

/-- Python rendering of a possibly missing value in an f-string
(`None` prints as "None"). -/
def pyStr (o : Option String) : String := o.getD "None"

/-- agent_server.py `generate_chat_title`: first 10 whitespace words,
joined and title-cased. -/
def generateChatTitle (q : String) : String :=
  pyTitle (String.intercalate " " ((pySplitWs q).take 10))

/-- agent_server.py `MAX_HISTORY_LENGTH`. -/
def MAX_HISTORY_LENGTH : Nat := 10

/-! ### The per-user health record store

`user_health_data[user_id]` is a dict from record-kind keys to record
payloads.  Only the five kinds below are read by the dialogue
orchestrator's system-prompt builder and recommendation branch; every
other stored kind (liver_function, chronic_risk, mental health,
reproductive_cycle/... , progress entries) only matters through the
dict's truthiness, so those keys are modelled by the list `otherKinds`.
Record payload fields mirror exactly the keys the orchestrator reads;
values that the source only renders into f-strings are modelled as the
rendered strings, and a key read through `.get`/`in` is an `Option`. -/

/-- The `reproductive_health` entry as read at agent_server.py lines 499-526. -/
structure ReproductiveRecord where
  mode : Option String
  nextPeriodStart : Option String
  ovulationWindow : Option String
  recommendations : List String
  gestationalWeeks : Option String
  expectedDelivery : Option String
  diagnosis : List String
  daysSinceDelivery : Option String
  ovulationInfo : Option String
  flags : List String
  deriving DecidableEq, Repr

/-- The `vital_signs` entry (`{"data": ..., "result": ..., "timestamp": ...}`);
`alerts` is `result["alerts"]` with `none` when the key is absent. -/
structure VitalSignsRecord where
  timestamp : String
  data : List (String × String)
  alerts : Option String
  deriving DecidableEq, Repr

/-- The `health_score` entry; each field is the corresponding `result` key,
`none` when absent. -/
structure HealthScoreRecord where
  timestamp : String
  totalScore : Option String
  healthStatus : Option String
  vitalsNeedingImprovement : Option String
  improvementTips : Option String
  deriving DecidableEq, Repr

/-- The `kidney_function` entry.  `analysis` is modelled as a list of lines
(the kidney tool returns a list; the source's fallback rendering for a
non-list value is not exercised by the store writers). -/
structure KidneyRecord where
  timestamp : String
  overallHealth : Option String
  confidenceLevel : Option String
  analysis : List String
  recommendations : Option (List String)
  deriving DecidableEq, Repr

/-- The `lipid_profile` entry; `classification` keeps the dict's insertion
order as an association list. -/
structure LipidRecord where
  timestamp : String
  classification : List (String × String)
  ascvdRisk : Option String
  recommendations : Option (List String)
  deriving DecidableEq, Repr

/-- One user's `user_health_data[user_id]` dict. -/
structure UserHealth where
  reproductiveHealth : Option ReproductiveRecord
  vitalSigns : Option VitalSignsRecord
  healthScore : Option HealthScoreRecord
  kidneyFunction : Option KidneyRecord
  lipidProfile : Option LipidRecord
  otherKinds : List String
  deriving DecidableEq, Repr

/-- Python truthiness of the user's health dict: empty iff no key stored. -/
def UserHealth.isEmpty (u : UserHealth) : Bool :=
  u.reproductiveHealth.isNone && u.vitalSigns.isNone && u.healthScore.isNone &&
  u.kidneyFunction.isNone && u.lipidProfile.isNone && u.otherKinds.isEmpty

/-- A user dict with no records at all. -/
def UserHealth.empty : UserHealth :=
  { reproductiveHealth := none, vitalSigns := none, healthScore := none
    kidneyFunction := none, lipidProfile := none, otherKinds := [] }

/-! ### The context aggregator (system-prompt digests)

Straight transcription of the `health_data_context` construction in
`process_agent_query` (agent_server.py lines 494-606). -/

/-- Bulleted lines `"  • item\n"`. -/
def bulletJoin (items : List String) : String :=
  String.join (items.map (fun r => "  • " ++ r ++ "\n"))

/-- Dashed lines `"- item\n"`. -/
def dashJoin (items : List String) : String :=
  String.join (items.map (fun r => "- " ++ r ++ "\n"))

/-- Reproductive-health digest (lines 499-526). -/
def reproductiveDigest (rh : ReproductiveRecord) : String :=
  "\n\n🌸 Reproductive Health Summary:\n" ++
  ("Mode: " ++ pyStr rh.mode ++ "\n") ++
  (if rh.mode = some "cycle" then
    "- Next Period: " ++ pyStr rh.nextPeriodStart ++ "\n" ++
    "- Ovulation Window: " ++ pyStr rh.ovulationWindow ++ "\n" ++
    "Recommendations:\n" ++ bulletJoin rh.recommendations
  else if rh.mode = some "pregnancy" then
    "- Gestational Age: " ++ pyStr rh.gestationalWeeks ++ "\n" ++
    "- Expected Delivery: " ++ pyStr rh.expectedDelivery ++ "\n" ++
    "Diagnosis:\n" ++ bulletJoin rh.diagnosis ++
    "Recommendations:\n" ++ bulletJoin rh.recommendations
  else if rh.mode = some "postpartum" then
    "- Days Since Delivery: " ++ pyStr rh.daysSinceDelivery ++ "\n" ++
    "- Ovulation Info: " ++ pyStr rh.ovulationInfo ++ "\n" ++
    "Flags:\n" ++ bulletJoin rh.flags ++
    "Recommendations:\n" ++ bulletJoin rh.recommendations
  else "")

/-- Vital-signs digest (lines 530-541). -/
def vitalDigest (v : VitalSignsRecord) : String :=
  "\n📊 Vital Signs:\n" ++
  ("Test date: " ++ v.timestamp.take 10 ++ "\n") ++
  String.join (v.data.map (fun kv => "- " ++ kv.1 ++ ": " ++ kv.2 ++ "\n")) ++
  (match v.alerts with
   | some a => if a ≠ "" then "Alerts: " ++ a ++ "\n" else ""
   | none => "")

/-- Health-score digest (lines 544-557). -/
def healthScoreDigest (h : HealthScoreRecord) : String :=
  "\n🏆 Health Score:\n" ++
  ("Test date: " ++ h.timestamp.take 10 ++ "\n") ++
  ("Total Score: " ++ h.totalScore.getD "Unknown" ++ "\n") ++
  ("Health Status: " ++ h.healthStatus.getD "Unknown" ++ "\n") ++
  (match h.vitalsNeedingImprovement with
   | some v => "Vitals Needing Improvement: " ++ v ++ "\n"
   | none => "") ++
  (match h.improvementTips with
   | some t => "Improvement Tips: " ++ t ++ "\n"
   | none => "")

/-- Kidney-function digest (lines 560-581). -/
def kidneyDigest (k : KidneyRecord) : String :=
  "\n🧪 Kidney Function:\n" ++
  ("Test date: " ++ k.timestamp.take 10 ++ "\n") ++
  ("Overall health: " ++ k.overallHealth.getD "Unknown" ++ "\n") ++
  ("Confidence level: " ++ k.confidenceLevel.getD "Unknown" ++ "\n") ++
  (if k.analysis.isEmpty then "" else "Analysis:\n" ++ dashJoin k.analysis) ++
  (match k.recommendations with
   | some recs => if recs.isEmpty then "" else "Recommendations:\n" ++ dashJoin recs
   | none => "")

/-- Lipid-profile digest (lines 584-603). -/
def lipidDigest (l : LipidRecord) : String :=
  "\n💉 Lipid Profile:\n" ++
  ("Test date: " ++ l.timestamp.take 10 ++ "\n") ++
  (if l.classification.isEmpty then "" else
    "Classification:\n" ++
    String.join (l.classification.map (fun kv =>
      "- " ++ pyTitle (pyReplace kv.1 "_" " ") ++ ": " ++ pyTitle kv.2 ++ "\n"))) ++
  ("ASCVD Risk: " ++ l.ascvdRisk.getD "Unknown" ++ "\n") ++
  (match l.recommendations with
   | some recs => if recs.isEmpty then "" else "Recommendations:\n" ++ dashJoin recs
   | none => "")

/-- The five record kinds that contribute a digest section, in the fixed
priority order of the source's if-chain. -/
inductive Kind where
  | reproductive
  | vitalSigns
  | healthScore
  | kidneyFunction
  | lipidProfile
  deriving DecidableEq, Repr

/-- Does the user's dict hold a record of this kind. -/
def UserHealth.hasKind (u : UserHealth) : Kind → Bool
  | .reproductive => u.reproductiveHealth.isSome
  | .vitalSigns => u.vitalSigns.isSome
  | .healthScore => u.healthScore.isSome
  | .kidneyFunction => u.kidneyFunction.isSome
  | .lipidProfile => u.lipidProfile.isSome

/-- Source order of the digest sections (lines 499, 530, 544, 560, 584). -/
def kindOrder : List Kind :=
  [Kind.reproductive, Kind.vitalSigns, Kind.healthScore, Kind.kidneyFunction,
   Kind.lipidProfile]

/-- The digest sections actually rendered, tagged by kind, in source order:
a kind with no record contributes nothing. -/
def digestSections (u : UserHealth) : List (Kind × String) :=
  (match u.reproductiveHealth with
   | some rh => [(Kind.reproductive, reproductiveDigest rh)]
   | none => []) ++
  (match u.vitalSigns with
   | some v => [(Kind.vitalSigns, vitalDigest v)]
   | none => []) ++
  (match u.healthScore with
   | some h => [(Kind.healthScore, healthScoreDigest h)]
   | none => []) ++
  (match u.kidneyFunction with
   | some k => [(Kind.kidneyFunction, kidneyDigest k)]
   | none => []) ++
  (match u.lipidProfile with
   | some l => [(Kind.lipidProfile, lipidDigest l)]
   | none => [])

/-- Header of the health-data block (line 497). -/
def healthHeader : String := "\n\nUser\x27s Health Data Summary:\n"

/-- Trailing instruction of the health-data block (line 606). -/
def healthFooter : String :=
  "\nIMPORTANT: Always use the above health data when providing recommendations or answering health-related questions. Personalize your responses based on this data."

/-- The `health_data_context` string built at lines 494-606 for a user that
is present in `user_health_data` (header, the per-kind digests in order,
trailing instruction). -/
def healthDataContext (u : UserHealth) : String :=
  healthHeader ++
  (match u.reproductiveHealth with | some rh => reproductiveDigest rh | none => "") ++
  (match u.vitalSigns with | some v => vitalDigest v | none => "") ++
  (match u.healthScore with | some h => healthScoreDigest h | none => "") ++
  (match u.kidneyFunction with | some k => kidneyDigest k | none => "") ++
  (match u.lipidProfile with | some l => lipidDigest l | none => "") ++
  healthFooter

/-- The fixed persona preamble (line 487). -/
def basePersona : String :=
  "You are Dr. Deuce, a certified and authorized medical assistant. You assist users by analyzing their health data, monitoring vitals, and providing health consultations. When giving recommendations or health advice, ALWAYS use the user\x27s actual health data if available. Personalize your responses based on their specific health metrics rather than giving generic advice."

/-- The system prompt rebuilt on every turn (lines 487-610): persona, then
retrieved context when non-empty, then the health-data block when the user
is present in `user_health_data` (its header makes it non-empty, so the
`if health_data_context:` guard at line 609 collapses to user presence). -/
def buildSystemPrompt (context : String) (health : Option UserHealth) : String :=
  basePersona ++
  (if context ≠ "" then "\n\nRelevant information: " ++ context else "") ++
  (match health with
   | some u => "\n\nUser\x27s health data for reference:" ++ healthDataContext u
   | none => "")

/-! ### Intent keywords (agent_server.py lines 639-716) -/

/-- Keywords of the recommendation rule (line 639). -/
def recommendationKeywords : List String :=
  ["recommendation", "advice", "suggest", "tips", "what should i do"]

/-- Keywords of the health-score rule (line 694). -/
def healthScoreKeywords : List String :=
  ["health score", "analyze my health", "health analysis"]

/-- Keywords of the vital-signs rule (line 699). -/
def vitalSignsKeywords : List String :=
  ["vital signs", "monitor vitals", "check vitals"]

/-- Keywords of the kidney rule (line 704). -/
def kidneyKeywords : List String :=
  ["kidney function", "kidney test", "renal function"]

/-- Keywords of the lipid rule (line 709). -/
def lipidKeywords : List String :=
  ["lipid profile", "cholesterol test", "lipid test"]

/-- Keywords of the consultation rule (line 714). -/
def consultationKeywords : List String :=
  ["health consultation", "consult", "medical advice"]

/-- The intent tags the if/elif chain can emit into `tools_used`. -/
inductive ToolTag where
  | personalizedRecommendations
  | noHealthData
  | healthScoreIntent
  | vitalSignsIntent
  | kidneyFunctionIntent
  | lipidProfileIntent
  | consultationIntent
  deriving DecidableEq, Repr

/-- The string appended to `tools_used` for each tag. -/
def ToolTag.tagName : ToolTag → String
  | .personalizedRecommendations => "personalized_recommendations"
  | .noHealthData => "no_health_data"
  | .healthScoreIntent => "health_score_intent"
  | .vitalSignsIntent => "vital_signs_intent"
  | .kidneyFunctionIntent => "kidney_function_intent"
  | .lipidProfileIntent => "lipid_profile_intent"
  | .consultationIntent => "consultation_intent"

/-- The pure intent classifier underlying the if/elif chain at lines
639-716: first match on the lowercased query wins, the recommendation
rule resolving to `personalized_recommendations` when the user has a
non-empty health dict and to `no_health_data` otherwise. -/
def classifyIntent (queryLower : String) (hasHealthData : Bool) : Option ToolTag :=
  if containsAny queryLower recommendationKeywords then
    some (if hasHealthData then .personalizedRecommendations else .noHealthData)
  else if containsAny queryLower healthScoreKeywords then some .healthScoreIntent
  else if containsAny queryLower vitalSignsKeywords then some .vitalSignsIntent
  else if containsAny queryLower kidneyKeywords then some .kidneyFunctionIntent
  else if containsAny queryLower lipidKeywords then some .lipidProfileIntent
  else if containsAny queryLower consultationKeywords then some .consultationIntent
  else none

/-- `tools_used` as produced from the classifier's verdict (the chain
appends at most one tag). -/
def tagList : Option ToolTag → List String
  | none => []
  | some t => [t.tagName]

/-! ### Personalized recommendation synthesis (lines 643-686) -/

/-- Health-score part of the synthesized recommendations (lines 646-654):
`Improvement Tips` split on `". "`, trimmed, re-terminated with a dot. -/
def healthScoreRecPart (h : HealthScoreRecord) : String :=
  match h.improvementTips with
  | some tips =>
    if tips ≠ "" then
      "**Health Score Recommendations:**\n" ++
      String.join ((pySplitOn tips ". ").map (fun tip =>
        if pyTrim tip ≠ "" then "- " ++ pyTrim tip ++ ".\n" else "")) ++ "\n"
    else ""
  | none => ""

/-- Kidney part of the synthesized recommendations (lines 656-663). -/
def kidneyRecPart (k : KidneyRecord) : String :=
  match k.recommendations with
  | some recs =>
    if recs.isEmpty then "" else
      "**Kidney Function Recommendations:**\n" ++ dashJoin recs ++ "\n"
  | none => ""

/-- Lipid part of the synthesized recommendations (lines 665-672). -/
def lipidRecPart (l : LipidRecord) : String :=
  match l.recommendations with
  | some recs =>
    if recs.isEmpty then "" else
      "**Lipid Profile Recommendations:**\n" ++ dashJoin recs ++ "\n"
  | none => ""

/-- Vital-signs part of the synthesized recommendations (lines 674-683):
alerts split on newlines, trimmed. -/
def vitalRecPart (v : VitalSignsRecord) : String :=
  match v.alerts with
  | some a =>
    if a ≠ "" ∧ a ≠ "No abnormal patterns detected." then
      "**Vital Signs Recommendations:**\n" ++
      String.join ((pySplitOn a "\n").map (fun line =>
        if pyTrim line ≠ "" then "- " ++ pyTrim line ++ "\n" else "")) ++ "\n"
    else ""
  | none => ""

/-- The reply synthesized purely from the stored records when the
recommendation rule fires for a user with health data (lines 643-686);
it overrides the model response.  Kind order: health score, kidney,
lipid, vital signs. -/
def recommendationResponse (u : UserHealth) : String :=
  "Based on your health data, here are my personalized recommendations:\n\n" ++
  (match u.healthScore with | some h => healthScoreRecPart h | none => "") ++
  (match u.kidneyFunction with | some k => kidneyRecPart k | none => "") ++
  (match u.lipidProfile with | some l => lipidRecPart l | none => "") ++
  (match u.vitalSigns with | some v => vitalRecPart v | none => "")

/-- Prompt appended when the recommendation rule fires without health data
(line 690). -/
def noHealthDataPrompt : String :=
  "\n\nI don\x27t have any health data for you yet. Would you like to enter your health data for personalized recommendations? You can choose from:\n\n- Health Score Analysis\n- Vital Signs Monitoring\n- Kidney Function Test\n- Lipid Profile Test\n\nType the name of the test you\x27d like to perform."

/-- Canned confirmation suffix per assessment-trigger tag (lines 695-715). -/
def intentSuffix : ToolTag → String
  | .healthScoreIntent => "\n\nWould you like to analyze your health score? Type \x27yes\x27 to begin."
  | .vitalSignsIntent => "\n\nWould you like to enter your vital signs for monitoring? Type \x27yes\x27 to begin."
  | .kidneyFunctionIntent => "\n\nWould you like to analyze your kidney function? Type \x27yes\x27 to begin."
  | .lipidProfileIntent => "\n\nWould you like to analyze your lipid profile? Type \x27yes\x27 to begin."
  | .consultationIntent => "\n\nWould you like to start a health consultation? Type \x27yes\x27 to begin."
  | .noHealthData => noHealthDataPrompt
  | .personalizedRecommendations => ""

/-- The whole intent branch (lines 634-720): given the lowercased query,
the user's health dict and the model's reply, produce the final response
text and `tools_used`.  The recommendation rule with data *overrides* the
model reply; every other firing rule appends its canned suffix. -/
def applyToolBranch (queryLower : String) (health : Option UserHealth)
    (modelResponse : String) : String × List String :=
  match classifyIntent queryLower (match health with
    | some u => !u.isEmpty
    | none => false) with
  | some .personalizedRecommendations =>
    (recommendationResponse ((health).getD UserHealth.empty),
     ["personalized_recommendations"])
  | some t => (modelResponse ++ intentSuffix t, [t.tagName])
  | none => (modelResponse, [])

/-! ### Server state and the dialogue orchestrator -/

/-- The module-level dictionaries of agent_server.py (lines 98-100):
`chat_titles`, `chat_histories`, `user_health_data`, all keyed by user id
(there is no per-session key in the source). -/
structure ServerState where
  chatTitles : String → Option String
  chatHistories : String → Option (List Msg)
  userHealthData : String → Option UserHealth

/-- The process-start state: all three dictionaries empty. -/
def ServerState.empty : ServerState :=
  { chatTitles := fun _ => none
    chatHistories := fun _ => none
    userHealthData := fun _ => none }

/-- Point update of a string-keyed dictionary. -/
def upd {α : Type} (f : String → Option α) (k : String) (v : α) :
    String → Option α :=
  fun x => if x = k then some v else f x

/-- Python truthiness test `user_id in user_health_data and
user_health_data[user_id]` (line 641). -/
def userHasHealthData (st : ServerState) (userId : String) : Bool :=
  match st.userHealthData userId with
  | some u => !u.isEmpty
  | none => false

/-- In-place overwrite of element 0's `content` field
(`chat_histories[user_id][0]["content"] = system_prompt`, line 619);
the role of element 0 is left untouched.  The source would raise on an
empty stored list, a state its own writers never produce; modelled as a
no-op. -/
def replaceHead (h : List Msg) (content : String) : List Msg :=
  match h with
  | [] => []
  | m :: t => { m with content := content } :: t

/-- History truncation (lines 625-628): when the length exceeds
`MAX_HISTORY_LENGTH`, keep element 0 plus the last
`MAX_HISTORY_LENGTH - 1` messages. -/
def truncateHistory (h : List Msg) : List Msg :=
  if h.length > MAX_HISTORY_LENGTH then
    match h with
    | [] => []
    | m :: _ => m :: h.drop (h.length - (MAX_HISTORY_LENGTH - 1))
  else h

/-- The history as it stands right before the model call, user message not
yet appended (lines 613-619): created as `[system]` on first contact,
otherwise the stored list with element 0's content replaced by the fresh
system prompt. -/
def initHist (st : ServerState) (userId : String) (prompt : String) : List Msg :=
  match st.chatHistories userId with
  | none => [{ role := Role.system, content := prompt }]
  | some h => replaceHead h prompt

/-- The structured reply of `process_agent_query` (lines 725-730). -/
structure AgentResult where
  response : String
  chatTitle : String
  chatHistory : List Msg
  toolsUsed : List String
  deriving Repr

/-- `process_agent_query(query, user_id, model_name)` (lines 476-735).
`retrieve` is the `retrieve_context` collaborator (it catches its own
errors and returns a string, so it is total); `llm` is `ollama.chat`,
which may fail.  The dictionaries are mutated in place in the source, so
the state holding the appended user message is committed *before* the
model call and survives a model failure; the failure is re-raised with the
source's `"Failed to process agent query: "` prefix.  `chat_titles` is
read back with a default of `""` (in the source the title always exists
whenever the history does). -/
def processAgentQuery (st : ServerState) (query userId : String)
    (retrieve : String → String) (llm : List Msg → Except String String) :
    Except String AgentResult × ServerState :=
  let context := retrieve query
  let queryLower := pyLower query
  let systemPrompt := buildSystemPrompt context (st.userHealthData userId)
  let titles := match st.chatHistories userId with
    | none => upd st.chatTitles userId (generateChatTitle query)
    | some _ => st.chatTitles
  let hist1 := initHist st userId systemPrompt ++ [{ role := Role.user, content := query }]
  let hist2 := truncateHistory hist1
  let stMid : ServerState :=
    { chatTitles := titles
      chatHistories := upd st.chatHistories userId hist2
      userHealthData := st.userHealthData }
  match llm hist2 with
  | .error e => (.error ("Failed to process agent query: " ++ e), stMid)
  | .ok modelResponse =>
    let (finalResponse, toolsUsed) :=
      applyToolBranch queryLower (st.userHealthData userId) modelResponse
    let hist3 := hist2 ++ [{ role := Role.assistant, content := finalResponse }]
    let stFinal : ServerState :=
      { chatTitles := titles
        chatHistories := upd st.chatHistories userId hist3
        userHealthData := st.userHealthData }
    (.ok { response := finalResponse
           chatTitle := (titles userId).getD ""
           chatHistory := hist3
           toolsUsed := toolsUsed }, stFinal)

/-- The state after a dialogue turn whose model call returns `r`. -/
def runTurn (st : ServerState) (query userId : String)
    (retrieve : String → String) (r : String) : ServerState :=
  (processAgentQuery st query userId retrieve (fun _ => Except.ok r)).2

/-- The state after a dialogue turn whose model call fails with `e`. -/
def runTurnFail (st : ServerState) (query userId : String)
    (retrieve : String → String) (e : String) : ServerState :=
  (processAgentQuery st query userId retrieve (fun _ => Except.error e)).2

/-! ### The HTTP-facing endpoints the claims mention -/

/-- `GET /chat-history` (lines 845-862): returns the stored messages and
health data for `user_id`; the `session_id` query parameter is accepted
but never used. -/
def getChatHistory (st : ServerState) (userId sessionId : String) :
    List Msg × Option UserHealth :=
  (((st.chatHistories userId).getD []), st.userHealthData userId)

/-- Affirmative tokens of the `/query` follow-up interception (line 876). -/
def followUpTokens : List String :=
  ["yes", "yes please", "sure", "okay", "yeah", "ok", "i want to chat"]

/-- `query.strip().lower() in [...]` (line 876). -/
def isFollowUpQuery (q : String) : Bool :=
  followUpTokens.contains (pyLower (pyTrim q))

/-- The rewritten query of the follow-up interception (line 884), with the
serialized health data embedded. -/
def followUpPrompt (dataJson : String) : String :=
  "I would like deeper insight based on my recent reproductive health data.\n\nHere is my data:\n" ++ dataJson

/-- Error returned when a follow-up arrives with no stored health data
(line 881). -/
def noPriorDataError : String :=
  "No prior health data found. Please complete an assessment first."

/-- The two accepted model names (lines 81-82). -/
def QWEN_MODEL : String := "qwen2.5:1.5b"

/-- The second accepted model name. -/
def DEEPSEEK_MODEL : String := "deepseek-r1:1.5b"

/-- `POST /query` (`get_response`, lines 865-895).  `jsonDump` is the
`json.dumps(context_data, indent=2)` serializer, treated as an external
collaborator.  Model validation first; then the follow-up interception:
an affirmative token with no stored health data returns the error without
touching `process_agent_query` (so no model call and no history change),
otherwise the query is replaced by the fixed insight prompt with the
user's serialized health store embedded.  An exception escaping
`process_agent_query` is caught and wrapped with
`"Error processing query: "` (line 892). -/
def getResponse (st : ServerState) (userId sessionId query model : String)
    (jsonDump : UserHealth → String) (retrieve : String → String)
    (llm : List Msg → Except String String) :
    Except String AgentResult × ServerState :=
  if model ≠ QWEN_MODEL ∧ model ≠ DEEPSEEK_MODEL then
    (.error ("Invalid model selection. Choose either " ++ QWEN_MODEL ++ " or " ++ DEEPSEEK_MODEL ++ "."), st)
  else
    let effectiveQuery :=
      if isFollowUpQuery query then
        match st.userHealthData userId with
        | none => none
        | some u => if u.isEmpty then none else some (followUpPrompt (jsonDump u))
      else some query
    match effectiveQuery with
    | none => (.error noPriorDataError, st)
    | some q =>
      match processAgentQuery st q userId retrieve llm with
      | (.error e, st') => (.error ("Error processing query: " ++ e), st')
      | (.ok res, st') => (.ok res, st')

/-- One assessment-submission endpoint (the shared shape of
`/vital-signs`, `/health-score`, `/kidney-function`, `/lipid-profile`,
..., lines 898-1087): write the user's record (`updHealth` abstracts the
per-kind payload), and, only when the user already has a chat history,
append a user/assistant message pair to it. -/
def submitAssessment (st : ServerState) (userId : String)
    (updHealth : Option UserHealth → UserHealth) (userMsg asstMsg : String) :
    ServerState :=
  { chatTitles := st.chatTitles
    chatHistories :=
      match st.chatHistories userId with
      | some h => upd st.chatHistories userId
          (h ++ [{ role := Role.user, content := userMsg },
                 { role := Role.assistant, content := asstMsg }])
      | none => st.chatHistories
    userHealthData := upd st.userHealthData userId (updHealth (st.userHealthData userId)) }

/-- Server states reachable from process start through the operations the
source performs on the three dictionaries: successful dialogue turns,
dialogue turns whose model call fails, and assessment submissions. -/
inductive Reachable : ServerState → Prop where
  | init : Reachable ServerState.empty
  | turnOk {st} (q uid : String) (retrieve : String → String) (r : String) :
      Reachable st → Reachable (runTurn st q uid retrieve r)
  | turnFail {st} (q uid : String) (retrieve : String → String) (e : String) :
      Reachable st → Reachable (runTurnFail st q uid retrieve e)
  | submit {st} (uid : String) (updHealth : Option UserHealth → UserHealth)
      (userMsg asstMsg : String) :
      Reachable st → Reachable (submitAssessment st uid updHealth userMsg asstMsg)

/-! ### The client confirmation state machine (agent_app.py) -/

/-- A client chat-log entry; roles are the literal strings the client uses
("user" / "ai"). -/
structure CMsg where
  role : String
  content : String
  deriving DecidableEq, Repr

/-- The `st.session_state` fields of agent_app.py (lines 66-101) that the
chat-input processing touches. -/
structure ClientState where
  messageLog : List CMsg
  waitingForVitals : Bool
  waitingForHealthScore : Bool
  waitingForKidneyFunction : Bool
  waitingForLipidProfile : Bool
  waitingForConfirmation : Bool
  confirmationType : Option String
  deriving DecidableEq, Repr

/-- The canned reply `handle_confirmation` returns for each confirmation
kind (agent_app.py lines 428-469); the consultation text embeds the
generated booking URL; any other kind gets the fallback sentence. -/
def confirmationPrompt (kind bookingUrl : String) : String :=
  if kind = "vital_signs" then "Please enter your vital signs below:"
  else if kind = "health_score" then "Please enter your health data below for analysis:"
  else if kind = "kidney_function" then "Please enter your kidney function test results below:"
  else if kind = "lipid_profile" then "Please enter your lipid profile test results below:"
  else if kind = "health_consultation" then
    "Thank you for confirming. I\x27ve generated a booking link for your health consultation.\n\n**[Click here to book your consultation](" ++ bookingUrl ++ ")**\n\nYour health data including age and sex will be used to prepare for your consultation. Is there anything specific you\x27d like to discuss during your appointment?"
  else "I\x27m not sure what you\x27re confirming. How can I help you?"

/-- `handle_confirmation(confirmation_type)` (agent_app.py lines 428-469):
per kind, set the sub-flow flag, clear the confirmation state and return
the canned prompt.  The consultation branch embeds a freshly generated
booking URL, passed in as `bookingUrl` (the source draws a random UUID).
An unrecognized kind returns the fallback sentence and, notably, does not
clear the confirmation state. -/
def handleConfirmation (cs : ClientState) (bookingUrl : String) :
    ClientState × String :=
  match cs.confirmationType with
  | some "vital_signs" =>
    ({ cs with waitingForVitals := true, waitingForConfirmation := false,
               confirmationType := none },
     confirmationPrompt "vital_signs" bookingUrl)
  | some "health_score" =>
    ({ cs with waitingForHealthScore := true, waitingForConfirmation := false,
               confirmationType := none },
     confirmationPrompt "health_score" bookingUrl)
  | some "kidney_function" =>
    ({ cs with waitingForKidneyFunction := true, waitingForConfirmation := false,
               confirmationType := none },
     confirmationPrompt "kidney_function" bookingUrl)
  | some "lipid_profile" =>
    ({ cs with waitingForLipidProfile := true, waitingForConfirmation := false,
               confirmationType := none },
     confirmationPrompt "lipid_profile" bookingUrl)
  | some "health_consultation" =>
    ({ cs with waitingForConfirmation := false, confirmationType := none },
     confirmationPrompt "health_consultation" bookingUrl)
  | _ =>
    (cs, "I\x27m not sure what you\x27re confirming. How can I help you?")

/-- The tool-intent handling inside `query_agent` (agent_app.py lines
187-201): a server intent tag raises the confirmation flag and records the
kind; no tag (and in particular `personalized_recommendations` or
`no_health_data`) leaves the state untouched. -/
def applyToolsUsed (cs : ClientState) (tools : List String) : ClientState :=
  if tools.contains "health_score_intent" then
    { cs with waitingForConfirmation := true, confirmationType := some "health_score" }
  else if tools.contains "vital_signs_intent" then
    { cs with waitingForConfirmation := true, confirmationType := some "vital_signs" }
  else if tools.contains "kidney_function_intent" then
    { cs with waitingForConfirmation := true, confirmationType := some "kidney_function" }
  else if tools.contains "lipid_profile_intent" then
    { cs with waitingForConfirmation := true, confirmationType := some "lipid_profile" }
  else cs

/-- The extra recommendation keyword list of the client (line 1262); both
the branch it guards and the final `else` call `query_agent` identically. -/
def clientRecommendationKeywords : List String :=
  ["recommendations", "what should i improve", "how can i improve",
   "what needs improvement", "vitals that need improvement", "advice",
   "suggest", "tips", "what should i do"]

/-- The chat-input processing block (agent_app.py lines 1253-1272):
append the user message; when awaiting confirmation and the lowercased
text equals "yes" (no trimming in the source), resolve via
`handle_confirmation` without contacting the server; otherwise send the
query to the server (both the recommendation-keyword branch and the final
`else` do the same).  `serverResponse` and `serverTools` stand for the
successful server reply; `bookingUrl` feeds the consultation branch.  The
returned `Bool` records whether `query_agent` (and hence the server's
model call) was invoked for this turn. -/
def clientStep (cs : ClientState) (userQuery : String)
    (serverTools : List String) (serverResponse : String)
    (bookingUrl : String) : ClientState × Bool :=
  let cs0 := { cs with messageLog := cs.messageLog ++ [{ role := "user", content := userQuery }] }
  if cs0.waitingForConfirmation && (pyLower userQuery == "yes") then
    let (cs1, text) := handleConfirmation cs0 bookingUrl
    ({ cs1 with messageLog := cs1.messageLog ++ [{ role := "ai", content := text }] }, false)
  else if containsAny (pyLower userQuery) clientRecommendationKeywords then
    let cs1 := applyToolsUsed cs0 serverTools
    ({ cs1 with messageLog := cs1.messageLog ++ [{ role := "ai", content := serverResponse }] }, true)
  else
    let cs1 := applyToolsUsed cs0 serverTools
    ({ cs1 with messageLog := cs1.messageLog ++ [{ role := "ai", content := serverResponse }] }, true)

/-! ### Derived views of a dialogue turn -/

/-- The system prompt a turn rebuilds (`build` steps of lines 487-610). -/
def turnPrompt (st : ServerState) (q uid : String)
    (retrieve : String → String) : String :=
  buildSystemPrompt (retrieve q) (st.userHealthData uid)

/-- The history snapshot handed to `ollama.chat` at line 631: the stored
history with refreshed system slot, the user message appended, truncated. -/
def turnSentHistory (st : ServerState) (q uid : String)
    (retrieve : String → String) : List Msg :=
  truncateHistory (initHist st uid (turnPrompt st q uid retrieve) ++
    [{ role := Role.user, content := q }])

/-- The updated `chat_titles` map of a turn (lines 614-616). -/
def turnTitles (st : ServerState) (q uid : String) : String → Option String :=
  match st.chatHistories uid with
  | none => upd st.chatTitles uid (generateChatTitle q)
  | some _ => st.chatTitles

/-! ### Auxiliary predicates and concrete demonstration states -/

/-- No message of the list carries the System role. -/
def GoodMsgTail (rest : List Msg) : Prop := ∀ m ∈ rest, m.role ≠ Role.system

/-- A well-formed stored history: element 0 is the System message and no
later element has the System role. -/
def GoodHist (h : List Msg) : Prop :=
  ∃ c rest, h = { role := Role.system, content := c } :: rest ∧ GoodMsgTail rest

/-- Every stored history of the state is well-formed. -/
def HistInv (st : ServerState) : Prop :=
  ∀ uid h, st.chatHistories uid = some h → GoodHist h

/-- None of the four confirmation-raising intent tags is present. -/
def noIntentTags (tools : List String) : Bool :=
  !(tools.contains "health_score_intent" || tools.contains "vital_signs_intent" ||
    tools.contains "kidney_function_intent" || tools.contains "lipid_profile_intent")

/-- A retrieval collaborator that finds nothing. -/
def retrieveNone : String → String := fun _ => ""

/-- Demonstration: state after one successful plain chat turn of user "u". -/
def demoState1 : ServerState :=
  runTurn ServerState.empty "hello there" "u" retrieveNone "Hi, how can I help?"

/-- Demonstration: state after five successful plain chat turns of user "u"
(the stored history then has 1 + 5*2 = 11 messages). -/
def demoState5 : ServerState :=
  runTurn (runTurn (runTurn (runTurn demoState1
    "second question" "u" retrieveNone "second answer")
    "third question" "u" retrieveNone "third answer")
    "fourth question" "u" retrieveNone "fourth answer")
    "fifth question" "u" retrieveNone "fifth answer"

/-- Demonstration kidney record. -/
def demoKidney : KidneyRecord :=
  { timestamp := "2024-01-02T10:00:00"
    overallHealth := some "Fair"
    confidenceLevel := some "High"
    analysis := ["Creatinine slightly elevated"]
    recommendations := some ["Drink more water"] }

/-- Demonstration lipid record. -/
def demoLipid : LipidRecord :=
  { timestamp := "2024-01-03T09:30:00"
    classification := [("total_chol", "normal"), ("ldl", "high")]
    ascvdRisk := some "Moderate"
    recommendations := some ["Reduce saturated fat"] }

/-- Demonstration health dict holding a kidney record and a lipid record. -/
def demoHealth : UserHealth :=
  { UserHealth.empty with kidneyFunction := some demoKidney, lipidProfile := some demoLipid }

/-- Demonstration server state where user "u" has `demoHealth` stored and
no chat history yet. -/
def demoHealthState : ServerState :=
  { ServerState.empty with userHealthData := upd ServerState.empty.userHealthData "u" demoHealth }

/-- Demonstration client state awaiting confirmation of the vital-signs
sub-flow. -/
def demoClientWaiting : ClientState :=
  { messageLog := []
    waitingForVitals := false
    waitingForHealthScore := false
    waitingForKidneyFunction := false
    waitingForLipidProfile := false
    waitingForConfirmation := true
    confirmationType := some "vital_signs" }

/-! ## Helper lemmas -/

theorem truncateHistory_length_le (h : List Msg) :
    (truncateHistory h).length ≤ MAX_HISTORY_LENGTH := by
  unfold truncateHistory
  by_cases hl : h.length > MAX_HISTORY_LENGTH
  · rw [if_pos hl]
    cases h with
    | nil => simp at hl
    | cons m t =>
      simp only [List.length_cons, List.length_drop, MAX_HISTORY_LENGTH] at hl ⊢
      omega
  · rw [if_neg hl]
    omega

theorem truncateHistory_cons (m : Msg) (t : List Msg) :
    ∃ n, truncateHistory (m :: t) = m :: t.drop n := by
  unfold truncateHistory
  by_cases hl : (m :: t).length > MAX_HISTORY_LENGTH
  · refine ⟨(m :: t).length - MAX_HISTORY_LENGTH, ?_⟩
    rw [if_pos hl]
    have h1 : (m :: t).length - (MAX_HISTORY_LENGTH - 1) =
        ((m :: t).length - MAX_HISTORY_LENGTH) + 1 := by
      simp only [List.length_cons, MAX_HISTORY_LENGTH] at hl ⊢
      omega
    rw [h1, List.drop_succ_cons]
  · exact ⟨0, by rw [if_neg hl]; simp⟩

theorem runTurn_eq (st : ServerState) (q uid : String)
    (retrieve : String → String) (r : String) :
    runTurn st q uid retrieve r =
    { chatTitles := turnTitles st q uid
      chatHistories := upd st.chatHistories uid
        (turnSentHistory st q uid retrieve ++
         [{ role := Role.assistant,
            content := (applyToolBranch (pyLower q) (st.userHealthData uid) r).1 }])
      userHealthData := st.userHealthData } := rfl

theorem processAgentQuery_ok_eq (st : ServerState) (q uid : String)
    (retrieve : String → String) (r : String) :
    processAgentQuery st q uid retrieve (fun _ => Except.ok r) =
    (Except.ok
      { response := (applyToolBranch (pyLower q) (st.userHealthData uid) r).1
        chatTitle := (turnTitles st q uid uid).getD ""
        chatHistory := turnSentHistory st q uid retrieve ++
          [{ role := Role.assistant,
             content := (applyToolBranch (pyLower q) (st.userHealthData uid) r).1 }]
        toolsUsed := (applyToolBranch (pyLower q) (st.userHealthData uid) r).2 },
     runTurn st q uid retrieve r) := rfl

theorem processAgentQuery_fail_eq (st : ServerState) (q uid : String)
    (retrieve : String → String) (e : String) :
    processAgentQuery st q uid retrieve (fun _ => Except.error e) =
    (Except.error ("Failed to process agent query: " ++ e),
     { chatTitles := turnTitles st q uid
       chatHistories := upd st.chatHistories uid (turnSentHistory st q uid retrieve)
       userHealthData := st.userHealthData }) := rfl

theorem goodMsgTail_append {h1 h2 : List Msg} (g1 : GoodMsgTail h1)
    (g2 : GoodMsgTail h2) : GoodMsgTail (h1 ++ h2) := by
  intro m hm
  rcases List.mem_append.mp hm with h | h
  · exact g1 m h
  · exact g2 m h

theorem goodMsgTail_drop {h : List Msg} (g : GoodMsgTail h) (n : Nat) :
    GoodMsgTail (h.drop n) :=
  fun m hm => g m (List.drop_subset n h hm)

theorem initHist_shape (st : ServerState) (uid p : String) (hinv : HistInv st) :
    ∃ rest, initHist st uid p = { role := Role.system, content := p } :: rest ∧
      GoodMsgTail rest := by
  unfold initHist
  cases hh : st.chatHistories uid with
  | none => exact ⟨[], rfl, by intro m hm; simp at hm⟩
  | some h =>
    rcases hinv uid h hh with ⟨c, rest, hrw, hrest⟩
    refine ⟨rest, ?_, hrest⟩
    rw [hrw]
    rfl

theorem turnSentHistory_shape (st : ServerState) (q uid : String)
    (retrieve : String → String) (hinv : HistInv st) :
    ∃ rest, turnSentHistory st q uid retrieve =
      { role := Role.system, content := turnPrompt st q uid retrieve } :: rest ∧
      GoodMsgTail rest := by
  rcases initHist_shape st uid (turnPrompt st q uid retrieve) hinv with ⟨rest, hrw, hrest⟩
  unfold turnSentHistory
  rw [hrw]
  rw [List.cons_append]
  rcases truncateHistory_cons (Msg.mk Role.system (turnPrompt st q uid retrieve))
    (rest ++ [Msg.mk Role.user q]) with ⟨n, hn⟩
  refine ⟨(rest ++ [Msg.mk Role.user q]).drop n, hn, ?_⟩
  apply goodMsgTail_drop
  apply goodMsgTail_append hrest
  intro m hm
  simp at hm
  rw [hm]
  simp

theorem histInv_runTurn {st : ServerState} (hinv : HistInv st) (q uid : String)
    (retrieve : String → String) (r : String) :
    HistInv (runTurn st q uid retrieve r) := by
  intro u h hh
  rw [runTurn_eq] at hh
  simp only [upd] at hh
  by_cases hu : u = uid
  · rw [if_pos hu] at hh
    cases hh
    rcases turnSentHistory_shape st q uid retrieve hinv with ⟨rest, hrw, hrest⟩
    have hmsg : GoodMsgTail
        [Msg.mk Role.assistant (applyToolBranch (pyLower q) (st.userHealthData uid) r).1] := by
      intro m hm
      simp at hm
      rw [hm]
      simp
    refine ⟨turnPrompt st q uid retrieve, _, ?_, goodMsgTail_append hrest hmsg⟩
    rw [hrw]
    rfl
  · rw [if_neg hu] at hh
    exact hinv u h hh

theorem histInv_runTurnFail {st : ServerState} (hinv : HistInv st) (q uid : String)
    (retrieve : String → String) (e : String) :
    HistInv (runTurnFail st q uid retrieve e) := by
  intro u h hh
  have heq : runTurnFail st q uid retrieve e =
      { chatTitles := turnTitles st q uid
        chatHistories := upd st.chatHistories uid (turnSentHistory st q uid retrieve)
        userHealthData := st.userHealthData } := rfl
  rw [heq] at hh
  simp only [upd] at hh
  by_cases hu : u = uid
  · rw [if_pos hu] at hh
    cases hh
    rcases turnSentHistory_shape st q uid retrieve hinv with ⟨rest, hrw, hrest⟩
    exact ⟨turnPrompt st q uid retrieve, rest, hrw, hrest⟩
  · rw [if_neg hu] at hh
    exact hinv u h hh

theorem histInv_submit {st : ServerState} (hinv : HistInv st) (uid : String)
    (updHealth : Option UserHealth → UserHealth) (userMsg asstMsg : String) :
    HistInv (submitAssessment st uid updHealth userMsg asstMsg) := by
  intro u h hh
  unfold submitAssessment at hh
  simp only at hh
  cases hold : st.chatHistories uid with
  | none =>
    rw [hold] at hh
    exact hinv u h hh
  | some h0 =>
    rw [hold] at hh
    simp only [upd] at hh
    by_cases hu : u = uid
    · rw [if_pos hu] at hh
      cases hh
      rcases hinv uid h0 hold with ⟨c, rest, hrw, hrest⟩
      have hmsg : GoodMsgTail [Msg.mk Role.user userMsg, Msg.mk Role.assistant asstMsg] := by
        intro m hm
        simp at hm
        rcases hm with hm | hm <;> rw [hm] <;> simp
      refine ⟨c, _, ?_, goodMsgTail_append hrest hmsg⟩
      rw [hrw]
      rfl
    · rw [if_neg hu] at hh
      exact hinv u h hh

theorem histInv_empty : HistInv ServerState.empty := by
  intro u h hh
  simp [ServerState.empty] at hh

theorem reachable_histInv {st : ServerState} (hst : Reachable st) : HistInv st := by
  induction hst with
  | init => exact histInv_empty
  | turnOk q uid retrieve r _ ih => exact histInv_runTurn ih q uid retrieve r
  | turnFail q uid retrieve e _ ih => exact histInv_runTurnFail ih q uid retrieve e
  | submit uid updHealth userMsg asstMsg _ ih => exact histInv_submit ih uid updHealth userMsg asstMsg

theorem upd_self {α : Type} (f : String → Option α) (k : String) (v : α) :
    upd f k v k = some v := by
  simp [upd]

/-! ## Claim C1 -/

/-- C1 counterexample: starting from the empty state, after the fifth
completed dialogue turn the stored history of user "u" holds 11 messages,
so the claimed bound `length ≤ MAX_HISTORY_LENGTH` (10) fails: truncation
runs before the model call and the assistant reply is appended after it. -/
theorem claim1_counterexample :
    ((demoState5.chatHistories "u").getD []).length = 11 ∧
    ¬ (((demoState5.chatHistories "u").getD []).length ≤ MAX_HISTORY_LENGTH) := by
  constructor
  · rfl
  · intro hle
    have h11 : ((demoState5.chatHistories "u").getD []).length = 11 := rfl
    rw [h11] at hle
    simp [MAX_HISTORY_LENGTH] at hle

/-- C1 (amended): after every completed dialogue turn the session's stored
history has at most `MAX_HISTORY_LENGTH + 1` (11) messages; the snapshot
handed to the model call has at most `MAX_HISTORY_LENGTH` (10); and element
0 is never evicted: when a history was stored, after the turn it still
starts with that same element 0, only its content having been replaced by
the freshly rebuilt system prompt. -/
theorem claim1_amended_history_bound (st : ServerState) (q uid : String)
    (retrieve : String → String) (r : String) :
    (((runTurn st q uid retrieve r).chatHistories uid).getD []).length ≤
      MAX_HISTORY_LENGTH + 1 ∧
    (turnSentHistory st q uid retrieve).length ≤ MAX_HISTORY_LENGTH ∧
    (∀ m t, st.chatHistories uid = some (m :: t) →
      ∃ rest, (runTurn st q uid retrieve r).chatHistories uid =
        some ({ m with content := turnPrompt st q uid retrieve } :: rest)) := by
  refine ⟨?_, truncateHistory_length_le _, ?_⟩
  · have h1 : ((runTurn st q uid retrieve r).chatHistories uid).getD [] =
        turnSentHistory st q uid retrieve ++
          [Msg.mk Role.assistant (applyToolBranch (pyLower q) (st.userHealthData uid) r).1] := by
      simp only [runTurn_eq, upd_self]
      rfl
    rw [h1]
    have h2 := truncateHistory_length_le
      (initHist st uid (turnPrompt st q uid retrieve) ++ [Msg.mk Role.user q])
    simp only [List.length_append, List.length_cons, List.length_nil]
    have h3 : (turnSentHistory st q uid retrieve).length ≤ MAX_HISTORY_LENGTH :=
      truncateHistory_length_le _
    omega
  · intro m t hmt
    have hinit : initHist st uid (turnPrompt st q uid retrieve) =
        { m with content := turnPrompt st q uid retrieve } :: t := by
      unfold initHist
      rw [hmt]
      rfl
    have hconc : initHist st uid (turnPrompt st q uid retrieve) ++ [Msg.mk Role.user q] =
        { m with content := turnPrompt st q uid retrieve } :: (t ++ [Msg.mk Role.user q]) := by
      rw [hinit]
      rfl
    rcases truncateHistory_cons ({ m with content := turnPrompt st q uid retrieve })
      (t ++ [Msg.mk Role.user q]) with ⟨n, hn⟩
    refine ⟨(t ++ [Msg.mk Role.user q]).drop n ++
      [Msg.mk Role.assistant (applyToolBranch (pyLower q) (st.userHealthData uid) r).1], ?_⟩
    simp only [runTurn_eq, upd_self]
    unfold turnSentHistory
    rw [hconc, hn]
    rfl

set_option maxRecDepth 100000 in
/-- C1 amended claim instantiated: one turn on the demonstration state keeps
the history within 11 and preserves element 0 with refreshed content. -/
theorem claim1_amended_history_bound_witness :
    (((runTurn demoState1 "again" "u" retrieveNone "ok").chatHistories "u").getD []).length ≤
      MAX_HISTORY_LENGTH + 1 ∧
    ∃ rest, (runTurn demoState1 "again" "u" retrieveNone "ok").chatHistories "u" =
      some (Msg.mk Role.system (turnPrompt demoState1 "again" "u" retrieveNone) :: rest) := by
  refine ⟨(claim1_amended_history_bound demoState1 "again" "u" retrieveNone "ok").1, ?_⟩
  exact (claim1_amended_history_bound demoState1 "again" "u" retrieveNone "ok").2.2
    (Msg.mk Role.system (buildSystemPrompt "" none))
    [Msg.mk Role.user "hello there", Msg.mk Role.assistant "Hi, how can I help?"]
    (by decide)

/-! ## Claim C2 -/

/-- C2: from any reachable server state, after a dialogue turn the message
at index 0 of the session's stored history is the System message, its
content is the freshly rebuilt system prompt (computed from the current
health-record snapshot), and no later message carries the System role: the
system message is replaced in place on every turn, never appended.
Moreover, after the turn, every session's stored history still satisfies
the head-is-System invariant (`HistInv`). -/
theorem claim2_system_slot_replaced (st : ServerState) (hst : Reachable st)
    (q uid : String) (retrieve : String → String) (r : String) :
    (∃ rest, (runTurn st q uid retrieve r).chatHistories uid =
      some (Msg.mk Role.system (buildSystemPrompt (retrieve q) (st.userHealthData uid)) :: rest) ∧
      GoodMsgTail rest) ∧
    HistInv (runTurn st q uid retrieve r) := by
  have hinv := reachable_histInv hst
  refine ⟨?_, histInv_runTurn hinv q uid retrieve r⟩
  rcases turnSentHistory_shape st q uid retrieve hinv with ⟨rest, hrw, hrest⟩
  have hmsg : GoodMsgTail
      [Msg.mk Role.assistant (applyToolBranch (pyLower q) (st.userHealthData uid) r).1] := by
    intro m hm
    simp at hm
    rw [hm]
    simp
  refine ⟨rest ++ [Msg.mk Role.assistant (applyToolBranch (pyLower q) (st.userHealthData uid) r).1],
    ?_, goodMsgTail_append hrest hmsg⟩
  simp only [runTurn_eq, upd_self]
  rw [hrw]
  rfl

/-- C2 instantiated at the empty (reachable) state: the first turn stores a
history headed by the System message holding the freshly built prompt. -/
theorem claim2_system_slot_replaced_witness :
    ∃ rest, (runTurn ServerState.empty "hello there" "u" retrieveNone "Hi, how can I help?").chatHistories "u" =
      some (Msg.mk Role.system
        (buildSystemPrompt (retrieveNone "hello there") (ServerState.empty.userHealthData "u")) :: rest) ∧
      GoodMsgTail rest :=
  (claim2_system_slot_replaced ServerState.empty Reachable.init "hello there" "u" retrieveNone
    "Hi, how can I help?").1

/-! ## Claim C3 -/

set_option maxRecDepth 400000 in
/-- C3 counterexample: after a turn held under one session, a history read
under a fresh session id for the same user returns exactly the same three
messages — the fresh session does not get its own empty history, because
the server keys histories by user id alone and ignores the session id. -/
theorem claim3_counterexample :
    (getChatHistory demoState1 "u" "session-2").1 =
      (getChatHistory demoState1 "u" "session-1").1 ∧
    (getChatHistory demoState1 "u" "session-2").1.length = 3 := by
  exact ⟨rfl, rfl⟩

/-- C3 (amended): sessions are keyed by user id alone.  The session id is
accepted but ignored by both the query endpoint and the history read, so a
first message under a fresh session id for the same user continues the
same stored chat history, and the health-record store (also keyed by user
id only) persists unchanged across dialogue turns. -/
theorem claim3_amended_keyed_by_user (st : ServerState) (uid s1 s2 q m r : String)
    (jsonDump : UserHealth → String) (retrieve : String → String)
    (llm : List Msg → Except String String) :
    getChatHistory st uid s1 = getChatHistory st uid s2 ∧
    getResponse st uid s1 q m jsonDump retrieve llm =
      getResponse st uid s2 q m jsonDump retrieve llm ∧
    (runTurn st q uid retrieve r).userHealthData = st.userHealthData := by
  exact ⟨rfl, rfl, rfl⟩

/-! ## Claim C5 -/

theorem mem_truncateHistory_append_last (l : List Msg) (x : Msg) :
    x ∈ truncateHistory (l ++ [x]) := by
  unfold truncateHistory
  by_cases hl : (l ++ [x]).length > MAX_HISTORY_LENGTH
  · rw [if_pos hl]
    cases l with
    | nil => simp [MAX_HISTORY_LENGTH] at hl
    | cons a l' =>
      have hlen : ((a :: l') ++ [x]).length = l'.length + 2 := by
        simp [List.length_append]
      have h2 : (a :: l').length = l'.length + 1 := by simp
      have hk : ((a :: l') ++ [x]).length - (MAX_HISTORY_LENGTH - 1) ≤ (a :: l').length := by
        rw [hlen] at hl ⊢
        rw [h2]
        simp only [MAX_HISTORY_LENGTH] at hl ⊢
        omega
      rw [List.cons_append]
      apply List.mem_cons_of_mem
      rw [← List.cons_append, List.drop_append_of_le_length hk]
      exact List.mem_append_right _ (List.mem_singleton_self x)
  · rw [if_neg hl]
    exact List.mem_append_right _ (List.mem_singleton_self x)

set_option maxRecDepth 400000 in
/-- C5 counterexample: a turn whose model call fails does mutate the chat
history — starting from a state holding three messages, the failed turn
leaves four stored messages, the last being the user's message of the
failed turn; so the history is not left unmodified as claimed. -/
theorem claim5_counterexample :
    (processAgentQuery demoState1 "second message" "u" retrieveNone
      (fun _ => Except.error "boom")).1 =
      Except.error "Failed to process agent query: boom" ∧
    (processAgentQuery demoState1 "second message" "u" retrieveNone
      (fun _ => Except.error "boom")).2.chatHistories "u" ≠ demoState1.chatHistories "u" ∧
    (((processAgentQuery demoState1 "second message" "u" retrieveNone
      (fun _ => Except.error "boom")).2.chatHistories "u").getD []).getLast? =
      some (Msg.mk Role.user "second message") := by
  refine ⟨rfl, by decide, by decide⟩

/-- C5 (amended): when the model call fails, the orchestrator surfaces the
failure to the caller, but the history is not left unmodified: the
refreshed system prompt, the appended user message and the truncation have
already been committed (the user's message is in the stored history), and
only the assistant reply is absent.  Histories of other users and the
health store are untouched. -/
theorem claim5_amended_failure_semantics (st : ServerState) (q uid e : String)
    (retrieve : String → String) :
    (processAgentQuery st q uid retrieve (fun _ => Except.error e)).1 =
      Except.error ("Failed to process agent query: " ++ e) ∧
    (processAgentQuery st q uid retrieve (fun _ => Except.error e)).2.chatHistories uid =
      some (turnSentHistory st q uid retrieve) ∧
    Msg.mk Role.user q ∈ turnSentHistory st q uid retrieve ∧
    (∀ u, u ≠ uid →
      (processAgentQuery st q uid retrieve (fun _ => Except.error e)).2.chatHistories u =
        st.chatHistories u) ∧
    (processAgentQuery st q uid retrieve (fun _ => Except.error e)).2.userHealthData =
      st.userHealthData := by
  refine ⟨rfl, ?_, ?_, ?_, rfl⟩
  · simp only [processAgentQuery_fail_eq, upd_self]
  · exact mem_truncateHistory_append_last _ _
  · intro u hu
    simp only [processAgentQuery_fail_eq, upd]
    rw [if_neg hu]

set_option maxRecDepth 400000 in
/-- C5 amended claim instantiated at a concrete failed turn. -/
theorem claim5_amended_failure_semantics_witness :
    (processAgentQuery demoState1 "second message" "u" retrieveNone
      (fun _ => Except.error "boom")).1 =
      Except.error ("Failed to process agent query: " ++ "boom") ∧
    Msg.mk Role.user "second message" ∈ turnSentHistory demoState1 "second message" "u" retrieveNone ∧
    (processAgentQuery demoState1 "second message" "u" retrieveNone
      (fun _ => Except.error "boom")).2.chatHistories "other-user" =
      demoState1.chatHistories "other-user" := by
  refine ⟨(claim5_amended_failure_semantics demoState1 "second message" "u" "boom" retrieveNone).1,
    (claim5_amended_failure_semantics demoState1 "second message" "u" "boom" retrieveNone).2.2.1,
    (claim5_amended_failure_semantics demoState1 "second message" "u" "boom" retrieveNone).2.2.2.1
      "other-user" (by decide)⟩

/-! ## Claim C6 -/

theorem applyToolBranch_recommendation {ql : String} {u : UserHealth} {m : String}
    (hne : u.isEmpty = false) (hkw : containsAny ql recommendationKeywords = true) :
    applyToolBranch ql (some u) m =
      (recommendationResponse u, ["personalized_recommendations"]) := by
  unfold applyToolBranch classifyIntent
  rw [hkw]
  simp [hne]

set_option maxRecDepth 400000 in
/-- C6 counterexample: a turn that classifies as a personalized
recommendation (the query holds a recommendation keyword and the user has
stored health data) still performs the language-model call: when that call
fails, the whole turn fails — so the model is invoked, contradicting the
claim that it is not invoked at all for such turns. -/
theorem claim6_counterexample :
    containsAny (pyLower "Can you give me advice?") recommendationKeywords = true ∧
    userHasHealthData demoHealthState "u" = true ∧
    (processAgentQuery demoHealthState "Can you give me advice?" "u" retrieveNone
      (fun _ => Except.error "llm down")).1 =
      Except.error "Failed to process agent query: llm down" := by
  exact ⟨by decide, by decide, rfl⟩

/-- C6 (amended): when the recommendation rule fires for a user with at
least one stored record, the reply is synthesized purely from the stored
records' recommendation/alert text in the fixed kind order (health score,
kidney, lipid, vital signs), overriding — but not skipping — the model
call: the turn's entire outcome is independent of the model's reply, yet
the model is still invoked, and `tools_used` is
`["personalized_recommendations"]`, a tag that sets no confirmation state
in the client. -/
theorem claim6_amended_recommendation_reply (st : ServerState) (q uid : String)
    (retrieve : String → String) (r rAlt : String) (u : UserHealth)
    (hu : st.userHealthData uid = some u) (hne : u.isEmpty = false)
    (hkw : containsAny (pyLower q) recommendationKeywords = true) :
    (∃ res, (processAgentQuery st q uid retrieve (fun _ => Except.ok r)).1 = Except.ok res ∧
      res.response = recommendationResponse u ∧
      res.toolsUsed = ["personalized_recommendations"]) ∧
    (processAgentQuery st q uid retrieve (fun _ => Except.ok r)).1 =
      (processAgentQuery st q uid retrieve (fun _ => Except.ok rAlt)).1 ∧
    (∀ cs, applyToolsUsed cs ["personalized_recommendations"] = cs) := by
  have hbranch : ∀ m, applyToolBranch (pyLower q) (st.userHealthData uid) m =
      (recommendationResponse u, ["personalized_recommendations"]) := by
    intro m
    rw [hu]
    exact applyToolBranch_recommendation hne hkw
  refine ⟨⟨_, congrArg Prod.fst (processAgentQuery_ok_eq st q uid retrieve r), ?_, ?_⟩, ?_, ?_⟩
  · show (applyToolBranch (pyLower q) (st.userHealthData uid) r).1 = recommendationResponse u
    rw [hbranch]
  · show (applyToolBranch (pyLower q) (st.userHealthData uid) r).2 =
      ["personalized_recommendations"]
    rw [hbranch]
  · rw [congrArg Prod.fst (processAgentQuery_ok_eq st q uid retrieve r),
      congrArg Prod.fst (processAgentQuery_ok_eq st q uid retrieve rAlt)]
    rw [hbranch r, hbranch rAlt]
  · intro cs
    simp [applyToolsUsed]

set_option maxRecDepth 400000 in
/-- C6 amended claim instantiated: for the demonstration user the reply is
the synthesis from the stored kidney and lipid records, independent of the
model output. -/
theorem claim6_amended_recommendation_reply_witness :
    (∃ res, (processAgentQuery demoHealthState "Can you give me advice?" "u" retrieveNone
        (fun _ => Except.ok "MODEL TEXT")).1 = Except.ok res ∧
      res.response = recommendationResponse demoHealth ∧
      res.toolsUsed = ["personalized_recommendations"]) ∧
    (processAgentQuery demoHealthState "Can you give me advice?" "u" retrieveNone
        (fun _ => Except.ok "MODEL TEXT")).1 =
      (processAgentQuery demoHealthState "Can you give me advice?" "u" retrieveNone
        (fun _ => Except.ok "OTHER TEXT")).1 := by
  have h := claim6_amended_recommendation_reply demoHealthState "Can you give me advice?" "u"
    retrieveNone "MODEL TEXT" "OTHER TEXT" demoHealth (by decide) (by decide) (by decide)
  exact ⟨h.1, h.2.1⟩

/-! ## Claim C7 -/

theorem applyToolBranch_toolsUsed (ql : String) (h : Option UserHealth) (m : String) :
    (applyToolBranch ql h m).2 =
      tagList (classifyIntent ql (match h with | some u => !u.isEmpty | none => false)) := by
  unfold applyToolBranch
  cases hc : classifyIntent ql (match h with | some u => !u.isEmpty | none => false) with
  | none => simp [tagList]
  | some t => cases t <;> simp [tagList, ToolTag.tagName]

theorem applyToolBranch_none (ql : String) (h : Option UserHealth) (m : String)
    (hc : classifyIntent ql (match h with | some u => !u.isEmpty | none => false) = none) :
    applyToolBranch ql h m = (m, []) := by
  unfold applyToolBranch
  rw [hc]

/-- C7: intent classification over the lowercased query is an ordered
first-match-wins rule list with the recommendation rule first — any query
holding a recommendation keyword classifies to the recommendation intent
(`personalized_recommendations` with stored data, `no_health_data`
without), whatever domain keywords it also holds; a query matching no rule
yields no intent, and the turn is still forwarded to the model as plain
chat (the reply is exactly the model's reply and `tools_used` is empty);
the classifier is a total Lean function, so classification never fails on
any input string, and the turn's `tools_used` always agrees with it. -/
theorem claim7_intent_rule_order (st : ServerState) (q uid : String)
    (retrieve : String → String) (r : String) :
    (containsAny (pyLower q) recommendationKeywords = true →
      classifyIntent (pyLower q) (userHasHealthData st uid) =
        some (if userHasHealthData st uid then ToolTag.personalizedRecommendations
              else ToolTag.noHealthData)) ∧
    (classifyIntent (pyLower q) (userHasHealthData st uid) = none ↔
      (containsAny (pyLower q) recommendationKeywords = false ∧
       containsAny (pyLower q) healthScoreKeywords = false ∧
       containsAny (pyLower q) vitalSignsKeywords = false ∧
       containsAny (pyLower q) kidneyKeywords = false ∧
       containsAny (pyLower q) lipidKeywords = false ∧
       containsAny (pyLower q) consultationKeywords = false)) ∧
    (∀ res, (processAgentQuery st q uid retrieve (fun _ => Except.ok r)).1 = Except.ok res →
      res.toolsUsed = tagList (classifyIntent (pyLower q) (userHasHealthData st uid))) ∧
    (classifyIntent (pyLower q) (userHasHealthData st uid) = none →
      ∀ res, (processAgentQuery st q uid retrieve (fun _ => Except.ok r)).1 = Except.ok res →
        res.response = r) := by
  have husr : (match st.userHealthData uid with | some u => !u.isEmpty | none => false) =
      userHasHealthData st uid := rfl
  refine ⟨?_, ?_, ?_, ?_⟩
  · intro hkw
    unfold classifyIntent
    rw [hkw]
    simp
  · unfold classifyIntent
    split_ifs with h1 h2 h3 h4 h5 h6 <;> simp_all
  · intro res hres
    rw [congrArg Prod.fst (processAgentQuery_ok_eq st q uid retrieve r)] at hres
    cases hres
    show (applyToolBranch (pyLower q) (st.userHealthData uid) r).2 = _
    rw [applyToolBranch_toolsUsed, husr]
  · intro hc res hres
    rw [congrArg Prod.fst (processAgentQuery_ok_eq st q uid retrieve r)] at hres
    cases hres
    show (applyToolBranch (pyLower q) (st.userHealthData uid) r).1 = r
    rw [applyToolBranch_none _ _ _ (by rw [husr]; exact hc)]

set_option maxRecDepth 400000 in
/-- C7 instantiated: a query holding both a recommendation keyword and a
kidney keyword classifies to the recommendation intent for a user with
stored data, and a keyword-free query is answered verbatim by the model. -/
theorem claim7_intent_rule_order_witness :
    classifyIntent (pyLower "Please suggest a kidney function test")
      (userHasHealthData demoHealthState "u") =
      some (if userHasHealthData demoHealthState "u" then ToolTag.personalizedRecommendations
            else ToolTag.noHealthData) ∧
    (processAgentQuery ServerState.empty "what a lovely day" "u" retrieveNone
      (fun _ => Except.ok "indeed")).1.map AgentResult.response = Except.ok "indeed" := by
  constructor
  · exact (claim7_intent_rule_order demoHealthState "Please suggest a kidney function test" "u"
      retrieveNone "M").1 (by decide)
  · have heq := congrArg Prod.fst
      (processAgentQuery_ok_eq ServerState.empty "what a lovely day" "u" retrieveNone "indeed")
    have h4 := (claim7_intent_rule_order ServerState.empty "what a lovely day" "u" retrieveNone
      "indeed").2.2.2 (by decide) _ heq
    rw [heq]
    exact congrArg Except.ok h4

/-! ## Claim C9 -/

/-- C9: for a user holding both a kidney-function record and a lipid-profile
record, the rebuilt system prompt contains the kidney digest and the lipid
digest with the kidney one first (it decomposes around the two digests in
that order); the digest sections follow the fixed kind-priority order
(reproductive, vital signs, health score, kidney, lipid) with absent kinds
contributing no section; and on the next turn the head of the stored
history carries exactly this rebuilt prompt. -/
theorem claim9_kidney_before_lipid (ctx : String) (u : UserHealth)
    (k : KidneyRecord) (l : LipidRecord)
    (hk : u.kidneyFunction = some k) (hl : u.lipidProfile = some l) :
    (∃ a b c, buildSystemPrompt ctx (some u) =
      a ++ kidneyDigest k ++ b ++ lipidDigest l ++ c) ∧
    ((digestSections u).map Prod.fst = kindOrder.filter u.hasKind) ∧
    (∀ st q uid retrieve r, st.userHealthData uid = some u →
      st.chatHistories uid ≠ some ([] : List Msg) →
      (((runTurn st q uid retrieve r).chatHistories uid).getD []).head?.map Msg.content =
        some (buildSystemPrompt (retrieve q) (some u))) := by
  refine ⟨?_, ?_, ?_⟩
  · refine ⟨basePersona ++ (if ctx ≠ "" then "\n\nRelevant information: " ++ ctx else "") ++
      ("\n\nUser\x27s health data for reference:" ++ (healthHeader ++
        (match u.reproductiveHealth with | some rh => reproductiveDigest rh | none => "") ++
        (match u.vitalSigns with | some v => vitalDigest v | none => "") ++
        (match u.healthScore with | some h => healthScoreDigest h | none => ""))),
      "", healthFooter, ?_⟩
    simp only [buildSystemPrompt, healthDataContext, hk, hl]
    apply String.ext
    simp only [String.data_append, List.append_assoc, List.nil_append, List.append_nil]
  · rcases u with ⟨ro, vo, ho, ko, lo, ot⟩
    simp only at hk hl
    subst hk
    subst hl
    cases ro <;> cases vo <;> cases ho <;>
      simp [digestSections, kindOrder, UserHealth.hasKind]
  · intro st q uid retrieve r hu hne
    have hpr : turnPrompt st q uid retrieve = buildSystemPrompt (retrieve q) (some u) := by
      unfold turnPrompt
      rw [hu]
    simp only [runTurn_eq, upd_self, Option.getD]
    unfold turnSentHistory initHist
    cases hh : st.chatHistories uid with
    | none =>
      simp [truncateHistory, MAX_HISTORY_LENGTH, hpr]
    | some h0 =>
      cases h0 with
      | nil => exact absurd hh hne
      | cons m t =>
        show (truncateHistory (replaceHead (m :: t) (turnPrompt st q uid retrieve) ++
          [Msg.mk Role.user q]) ++ _).head?.map Msg.content = _
        have hrh : replaceHead (m :: t) (turnPrompt st q uid retrieve) ++ [Msg.mk Role.user q] =
            { m with content := turnPrompt st q uid retrieve } :: (t ++ [Msg.mk Role.user q]) := by
          rfl
        rw [hrh]
        rcases truncateHistory_cons ({ m with content := turnPrompt st q uid retrieve })
          (t ++ [Msg.mk Role.user q]) with ⟨n, hn⟩
        rw [hn]
        simp [hpr]

set_option maxRecDepth 1000000 in
/-- C9 instantiated on the demonstration records: the prompt decomposes
around the kidney digest followed by the lipid digest, and the section
kinds are exactly the stored ones in priority order. -/
theorem claim9_kidney_before_lipid_witness :
    (∃ a b c, buildSystemPrompt "" (some demoHealth) =
      a ++ kidneyDigest demoKidney ++ b ++ lipidDigest demoLipid ++ c) ∧
    ((digestSections demoHealth).map Prod.fst = kindOrder.filter demoHealth.hasKind) := by
  have h := claim9_kidney_before_lipid "" demoHealth demoKidney demoLipid rfl rfl
  exact ⟨h.1, h.2.1⟩

/-! ## Claim C10 -/

/-- C10: a `POST /query` whose text, stripped and lowercased, is one of the
affirmative follow-up tokens is intercepted before orchestration: with no
stored health data the endpoint returns the "No prior health data found"
error with the state unchanged — for any model oracle, so no model call
and no history mutation — and otherwise the query is replaced by the fixed
insight prompt embedding the user's serialized health store, and that
rewritten query is processed instead of the original. -/
theorem claim10_follow_up_interception (st : ServerState) (uid sid q m : String)
    (jsonDump : UserHealth → String) (retrieve : String → String)
    (llm : List Msg → Except String String)
    (hm : m = QWEN_MODEL ∨ m = DEEPSEEK_MODEL)
    (hq : isFollowUpQuery q = true) :
    (userHasHealthData st uid = false →
      getResponse st uid sid q m jsonDump retrieve llm = (Except.error noPriorDataError, st)) ∧
    (∀ u, st.userHealthData uid = some u → u.isEmpty = false →
      getResponse st uid sid q m jsonDump retrieve llm =
        (match processAgentQuery st (followUpPrompt (jsonDump u)) uid retrieve llm with
         | (Except.error e, st') => (Except.error ("Error processing query: " ++ e), st')
         | (Except.ok res, st') => (Except.ok res, st'))) := by
  have hmcond : ¬ (m ≠ QWEN_MODEL ∧ m ≠ DEEPSEEK_MODEL) := by
    rcases hm with h | h <;> simp [h]
  constructor
  · intro hnone
    cases hud : st.userHealthData uid with
    | none => simp [getResponse, hmcond, hq, hud]
    | some u =>
      have hemp : u.isEmpty = true := by
        unfold userHasHealthData at hnone
        rw [hud] at hnone
        simpa using hnone
      simp [getResponse, hmcond, hq, hud, hemp]
  · intro u hu hne
    simp [getResponse, hmcond, hq, hu, hne]

set_option maxRecDepth 1000000 in
/-- C10 instantiated: an affirmative "YES" with no stored data returns the
canned error and leaves the state untouched; an affirmative " ok " for the
demonstration user processes the rewritten insight prompt instead. -/
theorem claim10_follow_up_interception_witness :
    getResponse ServerState.empty "u" "s" "YES" QWEN_MODEL (fun _ => "DATA") retrieveNone
      (fun _ => Except.ok "M") = (Except.error noPriorDataError, ServerState.empty) ∧
    getResponse demoHealthState "u" "s" " ok " QWEN_MODEL (fun _ => "DATA") retrieveNone
      (fun _ => Except.ok "M") =
      (match processAgentQuery demoHealthState (followUpPrompt "DATA") "u" retrieveNone
        (fun _ => Except.ok "M") with
       | (Except.error e, st') => (Except.error ("Error processing query: " ++ e), st')
       | (Except.ok res, st') => (Except.ok res, st')) := by
  constructor
  · exact (claim10_follow_up_interception ServerState.empty "u" "s" "YES" QWEN_MODEL
      (fun _ => "DATA") retrieveNone (fun _ => Except.ok "M") (Or.inl rfl) (by decide)).1
      (by decide)
  · exact (claim10_follow_up_interception demoHealthState "u" "s" " ok " QWEN_MODEL
      (fun _ => "DATA") retrieveNone (fun _ => Except.ok "M") (Or.inl rfl) (by decide)).2
      demoHealth (by decide) (by decide)

/-! ## Claim C4 -/

theorem applyToolsUsed_id (cs : ClientState) (tools : List String)
    (h : noIntentTags tools = true) : applyToolsUsed cs tools = cs := by
  unfold noIntentTags at h
  simp only [Bool.not_eq_true', Bool.or_eq_false_iff] at h
  unfold applyToolsUsed
  rw [h.1.1.1, h.1.1.2, h.1.2, h.2]
  rfl

/-- C4 counterexample: with a confirmation pending for the vital-signs
sub-flow, the reply "no thanks" is processed as an ordinary chat turn via
the server, but the confirmation state does not transition to Idle — the
pending confirmation survives, contradicting the claimed silent drop. -/
theorem claim4_counterexample :
    (clientStep demoClientWaiting "no thanks" [] "ok then" "url").1.waitingForConfirmation = true ∧
    (clientStep demoClientWaiting "no thanks" [] "ok then" "url").1.confirmationType =
      some "vital_signs" ∧
    (clientStep demoClientWaiting "no thanks" [] "ok then" "url").2 = true := by
  decide

/-- C4 (amended): an inbound message that is not affirmative while a
confirmation is pending is processed as an ordinary chat turn via the
model call, but the pending confirmation is NOT dropped: unless the
server's reply carries a new intent tag, the state remains
`AwaitingConfirmation` with the same kind, so a later "yes" still resolves
the stale confirmation. -/
theorem claim4_amended_confirmation_persists (cs : ClientState) (q : String)
    (tools : List String) (resp url : String)
    (hw : cs.waitingForConfirmation = true) (hq : pyLower q ≠ "yes") :
    (clientStep cs q tools resp url).2 = true ∧
    (noIntentTags tools = true →
      (clientStep cs q tools resp url).1.waitingForConfirmation = true ∧
      (clientStep cs q tools resp url).1.confirmationType = cs.confirmationType) := by
  have hbeq : (pyLower q == "yes") = false := by
    simp [hq]
  unfold clientStep
  simp only [hw, hbeq, Bool.and_false, Bool.false_eq_true, if_false]
  by_cases hrec : containsAny (pyLower q) clientRecommendationKeywords
  · rw [if_pos hrec]
    refine ⟨rfl, fun ht => ?_⟩
    rw [applyToolsUsed_id _ _ ht]
    exact ⟨rfl, rfl⟩
  · rw [if_neg hrec]
    refine ⟨rfl, fun ht => ?_⟩
    rw [applyToolsUsed_id _ _ ht]
    exact ⟨rfl, rfl⟩

/-- C4 amended claim instantiated on the demonstration client state. -/
theorem claim4_amended_confirmation_persists_witness :
    (clientStep demoClientWaiting "no thanks" [] "ok then" "url").2 = true ∧
    (clientStep demoClientWaiting "no thanks" [] "ok then" "url").1.waitingForConfirmation = true ∧
    (clientStep demoClientWaiting "no thanks" [] "ok then" "url").1.confirmationType =
      demoClientWaiting.confirmationType := by
  have h := claim4_amended_confirmation_persists demoClientWaiting "no thanks" [] "ok then" "url"
    (by decide) (by decide)
  exact ⟨h.1, (h.2 (by decide)).1, (h.2 (by decide)).2⟩

/-! ## Claim C8 -/

/-- C8 counterexample: the message " yes" (leading space) trims and
lowercases to the affirmative token, yet with a confirmation pending it is
NOT resolved: the client contacts the server (so the model call happens)
and the confirmation remains pending — the source compares
`user_query.lower()` against "yes" without trimming. -/
theorem claim8_counterexample :
    pyLower (pyTrim " yes") = "yes" ∧
    (clientStep demoClientWaiting " yes" [] "model reply" "url").2 = true ∧
    (clientStep demoClientWaiting " yes" [] "model reply" "url").1.waitingForConfirmation = true := by
  decide

/-- C8 (amended): while a confirmation for a known kind is pending, a
message whose lowercased text equals "yes" exactly (the source does not
trim) resolves it: no server/model call happens for the turn, the state
returns to Idle, and the reply appended to the log is the canned prompt
for that kind's structured form. -/
theorem claim8_amended_lowercase_yes (cs : ClientState) (q : String)
    (tools : List String) (resp url : String)
    (hw : cs.waitingForConfirmation = true) (hq : pyLower q = "yes")
    (hk : cs.confirmationType = some "vital_signs" ∨
      cs.confirmationType = some "health_score" ∨
      cs.confirmationType = some "kidney_function" ∨
      cs.confirmationType = some "lipid_profile" ∨
      cs.confirmationType = some "health_consultation") :
    (clientStep cs q tools resp url).2 = false ∧
    (clientStep cs q tools resp url).1.waitingForConfirmation = false ∧
    (clientStep cs q tools resp url).1.confirmationType = none ∧
    (∀ kind, cs.confirmationType = some kind →
      (clientStep cs q tools resp url).1.messageLog =
        cs.messageLog ++ [CMsg.mk "user" q, CMsg.mk "ai" (confirmationPrompt kind url)]) := by
  have hbeq : (pyLower q == "yes") = true := by
    simp [hq]
  unfold clientStep
  simp only [hw, hbeq, Bool.and_self, if_true]
  rcases hk with hk | hk | hk | hk | hk <;>
    (unfold handleConfirmation
     simp only [hk]
     refine ⟨by trivial, by trivial, by trivial, fun kind hkind => ?_⟩
     cases hkind
     simp)

/-- C8 amended claim instantiated: "Yes" resolves the pending vital-signs
confirmation with the canned prompt and no server call. -/
theorem claim8_amended_lowercase_yes_witness :
    (clientStep demoClientWaiting "Yes" [] "unused" "url").2 = false ∧
    (clientStep demoClientWaiting "Yes" [] "unused" "url").1.waitingForConfirmation = false ∧
    (clientStep demoClientWaiting "Yes" [] "unused" "url").1.confirmationType = none ∧
    (clientStep demoClientWaiting "Yes" [] "unused" "url").1.messageLog =
      demoClientWaiting.messageLog ++
        [CMsg.mk "user" "Yes", CMsg.mk "ai" (confirmationPrompt "vital_signs" "url")] := by
  have h := claim8_amended_lowercase_yes demoClientWaiting "Yes" [] "unused" "url"
    (by decide) (by decide) (Or.inl rfl)
  exact ⟨h.1, h.2.1, h.2.2.1, h.2.2.2 "vital_signs" rfl⟩

end HealthAgent
